import Mathlib

/-!
Verification of the change-detection and notification logic of the Vulcan
Home Assistant integration (`custom_components/vulcan/sensor.py`).

The Python entities are embedded as pure state transformers: each entity's
mutable fields form a state record, a call to `async_update` consumes the
outcomes of the (at most two) fetch attempts and produces a new state
together with the observable effects of the call (persistent notification
emitted, domain event fired, exception propagated out of `async_update`,
number of fetch calls made).  Python `datetime` values are embedded as
naturals (only their total order is used); calendar dates are naturals
counting days, so `date.today() + timedelta(days=1)` becomes `today + 1`.
-/

namespace Vulcan

/-- Outcome of one `async_update` call on an entity: the entity state after
the call, whether a persistent notification was created, whether a
`vulcan_event` domain event was fired, whether an exception escaped the
method, and how many fetch calls were made. -/
structure Outcome (σ : Type) where
  state : σ
  notified : Bool
  eventFired : Bool
  raised : Bool
  fetchCalls : Nat
  deriving Repr, DecidableEq

/-- The `try: x = await fetch() except Exception: x = await fetch()` pattern:
attempt 0, and on failure attempt 1; the second component counts the fetch
calls made.  A failure of the retry is returned as `.error` (it propagates,
there is no second handler in the source). -/
def retryFetch {α : Type} (f : Nat → Except Unit α) : Except Unit α × Nat :=
  match f 0 with
  | .ok v => (.ok v, 1)
  | .error _ => (f 1, 2)

/-! ### Attendance (`LatestAttendance`) -/

/-- Snapshot returned by `get_latest_attendance`; the `datetime` field is the
entry's timestamp, embedded as a natural number since only its order is used. -/
structure AttSnapshot where
  content : String
  datetime : Nat
  lesson_name : String
  lesson_number : String
  lesson_date : String
  lesson_time : String
  deriving Repr, DecidableEq

/-- Mutable fields of a `LatestAttendance` entity. -/
structure AttState where
  latest_attendance : AttSnapshot
  old_att : Nat
  notify : Bool
  studentId : Nat
  stateVal : String
  deriving Repr, DecidableEq

/-- `LatestAttendance.__init__`: baseline `old_att` is the setup snapshot's
datetime and the exposed state its content. -/
def attInit (v : AttSnapshot) (notify : Bool) (sid : Nat) : AttState :=
  { latest_attendance := v, old_att := v.datetime, notify := notify,
    studentId := sid, stateVal := v.content }

/-- Device identifier used both by `LatestAttendance.device_info` and by the
registry lookup in its `async_update`. -/
def attendanceDeviceIdentifier (sid : Nat) : String := "attendance" ++ toString sid

/-- `LatestAttendance.async_update`.  `reg` is the device registry: it tells
for each identifier string whether a device entry is registered under it. -/
def attUpdate (s : AttState) (reg : String → Bool)
    (f : Nat → Except Unit AttSnapshot) : Outcome AttState :=
  match retryFetch f with
  | (.error _, c) => ⟨s, false, false, true, c⟩
  | (.ok la, c) =>
    if la.content ≠ "-" ∧ s.old_att < la.datetime then
      ⟨{ s with latest_attendance := la, old_att := la.datetime, stateVal := la.content },
        s.notify && la.content != "obecność",
        reg (attendanceDeviceIdentifier s.studentId), false, c⟩
    else
      ⟨{ s with latest_attendance := la, stateVal := la.content }, false, false, false, c⟩

/-! ### Messages (`LatestMessage`) -/

/-- Snapshot returned by `get_latest_message`. -/
structure MsgSnapshot where
  id : Nat
  title : String
  sender : String
  date : String
  content : String
  deriving Repr, DecidableEq

/-- Mutable fields of a `LatestMessage` entity. -/
structure MsgState where
  latest_message : MsgSnapshot
  old_msg : Nat
  notify : Bool
  studentId : Nat
  stateVal : String
  deriving Repr, DecidableEq

/-- Device identifier used by `LatestMessage.device_info`, by the registry
lookup in its `async_update`, and (notably) by the registry lookup in
`LatestGrade.async_update`. -/
def messageDeviceIdentifier (sid : Nat) : String := "message" ++ toString sid

/-- `LatestMessage.__init__`: baseline `old_msg` is the setup snapshot's id
and the exposed state the title truncated to 250 characters. -/
def msgInit (v : MsgSnapshot) (notify : Bool) (sid : Nat) : MsgState :=
  { latest_message := v, old_msg := v.id, notify := notify,
    studentId := sid, stateVal := v.title.take 250 }

/-- `LatestMessage.async_update`. -/
def msgUpdate (s : MsgState) (reg : String → Bool)
    (f : Nat → Except Unit MsgSnapshot) : Outcome MsgState :=
  match retryFetch f with
  | (.error _, c) => ⟨s, false, false, true, c⟩
  | (.ok lm, c) =>
    if s.old_msg ≠ lm.id ∧ lm.id ≠ 0 then
      ⟨{ s with latest_message := lm, old_msg := lm.id, stateVal := lm.title.take 250 },
        s.notify, reg (messageDeviceIdentifier s.studentId), false, c⟩
    else
      ⟨{ s with latest_message := lm, stateVal := lm.title.take 250 }, false, false, false, c⟩

/-! ### Grades (`LatestGrade`) -/

/-- Snapshot returned by `get_latest_grade`. -/
structure GradeSnapshot where
  content : String
  subject : String
  date : String
  description : String
  teacher : String
  weight : String
  deriving Repr, DecidableEq

/-- The identity string the source builds with
`f"{content}_{subject}_{date}_{description}"`. -/
def gradeId (g : GradeSnapshot) : String :=
  g.content ++ "_" ++ g.subject ++ "_" ++ g.date ++ "_" ++ g.description

/-- Device identifier used by `LatestGrade.device_info` (but not by the
registry lookup in its `async_update`, which uses `messageDeviceIdentifier`). -/
def gradeDeviceIdentifier (sid : Nat) : String := "grade" ++ toString sid

/-- Mutable fields of a `LatestGrade` entity. -/
structure GradeState where
  latest_grade : GradeSnapshot
  old_state : String
  notify : Bool
  studentId : Nat
  stateVal : String
  deriving Repr, DecidableEq

/-- `LatestGrade.__init__`: baseline `old_state` is the joined identity string
of the setup snapshot. -/
def gradeInit (v : GradeSnapshot) (notify : Bool) (sid : Nat) : GradeState :=
  { latest_grade := v, old_state := gradeId v, notify := notify,
    studentId := sid, stateVal := v.content }

/-- `LatestGrade.async_update`.  Note the device registry lookup uses the
`message{id}` identifier, as in the source. -/
def gradeUpdate (s : GradeState) (reg : String → Bool)
    (f : Nat → Except Unit GradeSnapshot) : Outcome GradeState :=
  match retryFetch f with
  | (.error _, c) => ⟨s, false, false, true, c⟩
  | (.ok lg, c) =>
    if lg.content ≠ "-" ∧ s.old_state ≠ gradeId lg then
      ⟨{ s with latest_grade := lg, old_state := gradeId lg, stateVal := lg.content },
        s.notify, reg (messageDeviceIdentifier s.studentId), false, c⟩
    else
      ⟨{ s with latest_grade := lg, stateVal := lg.content }, false, false, false, c⟩

/-! ### Homework, exam, lucky number (no notification logic) -/

/-- Snapshot returned by `get_next_homework`. -/
structure HwSnapshot where
  description : String
  subject : String
  teacher : String
  date : String
  deriving Repr, DecidableEq

/-- Mutable fields of a `NextHomework` entity. -/
structure HwState where
  next_homework : HwSnapshot
  stateVal : String
  deriving Repr, DecidableEq

/-- `NextHomework.async_update`. -/
def hwUpdate (s : HwState) (f : Nat → Except Unit HwSnapshot) : Outcome HwState :=
  match retryFetch f with
  | (.error _, c) => ⟨s, false, false, true, c⟩
  | (.ok v, c) => ⟨⟨v, v.description.take 250⟩, false, false, false, c⟩

/-- Snapshot returned by `get_next_exam`. -/
structure ExamSnapshot where
  description : String
  subject : String
  type : String
  teacher : String
  date : String
  deriving Repr, DecidableEq

/-- Mutable fields of a `NextExam` entity. -/
structure ExamState where
  next_exam : ExamSnapshot
  stateVal : String
  deriving Repr, DecidableEq

/-- `NextExam.async_update`. -/
def examUpdate (s : ExamState) (f : Nat → Except Unit ExamSnapshot) : Outcome ExamState :=
  match retryFetch f with
  | (.error _, c) => ⟨s, false, false, true, c⟩
  | (.ok v, c) => ⟨⟨v, v.description.take 250⟩, false, false, false, c⟩

/-- Snapshot returned by `get_lucky_number`. -/
structure LuckySnapshot where
  number : Nat
  date : String
  deriving Repr, DecidableEq

/-- Mutable fields of a `LuckyNumber` entity. -/
structure LuckyState where
  lucky_number : LuckySnapshot
  stateVal : Nat
  deriving Repr, DecidableEq

/-- `LuckyNumber.async_update`. -/
def luckyUpdate (s : LuckyState) (f : Nat → Except Unit LuckySnapshot) : Outcome LuckyState :=
  match retryFetch f with
  | (.error _, c) => ⟨s, false, false, true, c⟩
  | (.ok v, c) => ⟨⟨v, v.number⟩, false, false, false, c⟩

/-! ### Lesson coordinator (`async_update_data`, `DataUpdateCoordinator`) -/

/-- One lesson slot as assembled by `get_lessons`; `date` is the slot's
calendar date (days as naturals). -/
structure LessonInfo where
  lesson : String
  date : Nat
  room : String
  teacher : String
  from_to : String
  reason : String
  deriving Repr, DecidableEq

/-- The dictionary returned by a successful `async_update_data`: the slot
lists for today (`lessons`) and tomorrow (`lessons_t`), slot `i` at index `i`. -/
structure LessonsData where
  lessons : List LessonInfo
  lessons_t : List LessonInfo
  deriving Repr, DecidableEq

/-- Errors the aggregate lesson fetch can raise: the typed authorization
failure, a connection error, expiry of the 30-unit `timeout` block, or any
other exception. -/
inductive FetchError where
  | unauthorizedCertificate
  | clientConnector
  | timeoutExpired
  | other
  deriving Repr, DecidableEq

/-- What the coordinator's `update_method` produces: the data dictionary, a
bare `None` return (the fall-through after the authorization handler), or a
raised `UpdateFailed`. -/
inductive UpdateMethodResult where
  | ok (d : LessonsData)
  | noneResult
  | updateFailed (e : FetchError)
  deriving Repr, DecidableEq

/-- `async_update_data`: the Boolean records whether a re-authentication flow
was scheduled.  `UnauthorizedCertificateException` is caught, logged, the
reauth flow is scheduled and the handler falls through returning `None`; a
`ClientConnectorError` and any other exception (including the timeout) are
re-raised as `UpdateFailed`. -/
def async_update_data (fetch : Except FetchError LessonsData) :
    UpdateMethodResult × Bool :=
  match fetch with
  | .ok d => (.ok d, false)
  | .error .unauthorizedCertificate => (.noneResult, true)
  | .error e => (.updateFailed e, false)

/-- The fields of the coordinator the entities read. -/
structure CoordinatorState where
  data : Option LessonsData
  last_update_success : Bool
  deriving Repr, DecidableEq

/-- Modelled from the spec: the refresh coordinator (`DataUpdateCoordinator`)
is an external framework collaborator not in the sources.  Per the spec, when
the update method raises the typed update failure the previously stored data
is retained and consumers see a last-update-unsuccessful indicator; a normal
return (including `None`) is treated as a successful cycle and replaces the
stored data wholesale. -/
def coordinatorRefresh (c : CoordinatorState) (r : UpdateMethodResult) :
    CoordinatorState :=
  match r with
  | .ok d => ⟨some d, true⟩
  | .noneResult => ⟨none, true⟩
  | .updateFailed _ => ⟨c.data, false⟩

/-- Slot lookup `coordinator.data[f"lessons{tomorrow}"][f"lesson_{number}"]`,
`none` when the key is absent. -/
def slotLookup (d : LessonsData) (is_tomorrow : Bool) (number : Nat) :
    Option LessonInfo :=
  (if is_tomorrow then d.lessons_t else d.lessons).get? number

namespace VulcanLessonEntity

/-- `VulcanLessonEntity.state`: reading the slot's `lesson` field from the
coordinator data; `none` models the read raising (data `None` or key absent). -/
def state (data : Option LessonsData) (is_tomorrow : Bool) (number : Nat) :
    Option String :=
  match data with
  | none => none
  | some d => (slotLookup d is_tomorrow number).map (fun li => li.lesson)

/-- `VulcanLessonEntity.available`, with the slot's stored record in hand:
when the last coordinator update failed and the stored date differs from the
expected calendar date (today, or today + 1 for a tomorrow slot) the entity
reports unavailable. -/
def available (last_update_success : Bool) (is_tomorrow : Bool)
    (slot : LessonInfo) (today : Nat) : Bool :=
  if !last_update_success then
    if !is_tomorrow then
      if slot.date ≠ today then false else true
    else
      if slot.date ≠ today + 1 then false else true
  else true

end VulcanLessonEntity

/-! ### Repeated cycles with a constant fetched snapshot -/

/-- Run `n` attendance update cycles in which every fetch succeeds with the
same snapshot `v`; returns the final state and the total number of
notifications and domain events emitted. -/
def attRepeat (s : AttState) (reg : String → Bool) (v : AttSnapshot) :
    Nat → AttState × Nat
  | 0 => (s, 0)
  | n + 1 =>
    let o := attUpdate s reg (fun _ => .ok v)
    let r := attRepeat o.state reg v n
    (r.1, (cond o.notified 1 0) + (cond o.eventFired 1 0) + r.2)

/-- Run `n` message update cycles with constant snapshot `v`. -/
def msgRepeat (s : MsgState) (reg : String → Bool) (v : MsgSnapshot) :
    Nat → MsgState × Nat
  | 0 => (s, 0)
  | n + 1 =>
    let o := msgUpdate s reg (fun _ => .ok v)
    let r := msgRepeat o.state reg v n
    (r.1, (cond o.notified 1 0) + (cond o.eventFired 1 0) + r.2)

/-- Run `n` grade update cycles with constant snapshot `v`. -/
def gradeRepeat (s : GradeState) (reg : String → Bool) (v : GradeSnapshot) :
    Nat → GradeState × Nat
  | 0 => (s, 0)
  | n + 1 =>
    let o := gradeUpdate s reg (fun _ => .ok v)
    let r := gradeRepeat o.state reg v n
    (r.1, (cond o.notified 1 0) + (cond o.eventFired 1 0) + r.2)

/-! ### Reduction lemmas for the update functions -/

theorem attUpdate_ok (s : AttState) (reg : String → Bool) (v : AttSnapshot) :
    attUpdate s reg (fun _ => .ok v) =
      if v.content ≠ "-" ∧ s.old_att < v.datetime then
        ⟨{ s with latest_attendance := v, old_att := v.datetime, stateVal := v.content },
          s.notify && v.content != "obecność",
          reg (attendanceDeviceIdentifier s.studentId), false, 1⟩
      else
        ⟨{ s with latest_attendance := v, stateVal := v.content },
          false, false, false, 1⟩ := rfl

theorem msgUpdate_ok (s : MsgState) (reg : String → Bool) (v : MsgSnapshot) :
    msgUpdate s reg (fun _ => .ok v) =
      if s.old_msg ≠ v.id ∧ v.id ≠ 0 then
        ⟨{ s with latest_message := v, old_msg := v.id, stateVal := v.title.take 250 },
          s.notify, reg (messageDeviceIdentifier s.studentId), false, 1⟩
      else
        ⟨{ s with latest_message := v, stateVal := v.title.take 250 },
          false, false, false, 1⟩ := rfl

theorem gradeUpdate_ok (s : GradeState) (reg : String → Bool) (v : GradeSnapshot) :
    gradeUpdate s reg (fun _ => .ok v) =
      if v.content ≠ "-" ∧ s.old_state ≠ gradeId v then
        ⟨{ s with latest_grade := v, old_state := gradeId v, stateVal := v.content },
          s.notify, reg (messageDeviceIdentifier s.studentId), false, 1⟩
      else
        ⟨{ s with latest_grade := v, stateVal := v.content },
          false, false, false, 1⟩ := rfl

/-! ### Claims -/

/-- Claim C5: with the message notify flag enabled, a successful update cycle
emits a notification if and only if the fetched message id differs from the
stored previous id and is not 0. -/
theorem claim_C5_message_notify (s : MsgState) (reg : String → Bool)
    (v : MsgSnapshot) (h : s.notify = true) :
    (msgUpdate s reg (fun _ => .ok v)).notified = true ↔
      (s.old_msg ≠ v.id ∧ v.id ≠ 0) := by
  rw [msgUpdate_ok]
  split_ifs with hc <;> simp [h, hc]

/-- Witness for C5 at a concrete baseline (id 5) and fetched message (id 6). -/
theorem claim_C5_witness :
    (msgInit ⟨5, "t", "s", "d", "c"⟩ true 1).notify = true ∧
      ((msgUpdate (msgInit ⟨5, "t", "s", "d", "c"⟩ true 1) (fun _ => true)
          (fun _ => .ok ⟨6, "t2", "s", "d", "c"⟩)).notified = true ↔
        ((5 : Nat) ≠ 6 ∧ (6 : Nat) ≠ 0)) :=
  ⟨rfl, claim_C5_message_notify (msgInit ⟨5, "t", "s", "d", "c"⟩ true 1)
    (fun _ => true) ⟨6, "t2", "s", "d", "c"⟩ rfl⟩

/-- Claim C7: a lesson-slot entity reports unavailable exactly when the
coordinator's last update failed and the slot's stored date differs from the
expected calendar date at read time (today for a today slot, today + 1 for a
tomorrow slot). -/
theorem claim_C7_availability (lus tom : Bool) (slot : LessonInfo) (today : Nat) :
    VulcanLessonEntity.available lus tom slot today = false ↔
      (lus = false ∧ slot.date ≠ (if tom then today + 1 else today)) := by
  cases lus <;> cases tom <;> simp [VulcanLessonEntity.available]

/-- Witness for C7: a failed refresh after midnight — the today slot still
holds yesterday's date (5) while today is 6, so the slot is unavailable. -/
theorem claim_C7_witness :
    VulcanLessonEntity.available false false ⟨"Math", 5, "r", "t", "ft", "re"⟩ 6
      = false :=
  (claim_C7_availability false false ⟨"Math", 5, "r", "t", "ft", "re"⟩ 6).mpr
    ⟨rfl, by decide⟩

/-- Claim C8: every aggregate-fetch error other than the authorization failure
(the timeout and connection errors included) is turned into a typed
`UpdateFailed`, on which the coordinator retains its previously stored data
and flips `last_update_success` to false. -/
theorem claim_C8_soft_failure (c : CoordinatorState) (e : FetchError)
    (h : e ≠ FetchError.unauthorizedCertificate) :
    (async_update_data (.error e)).1 = UpdateMethodResult.updateFailed e ∧
      coordinatorRefresh c (async_update_data (.error e)).1 =
        ⟨c.data, false⟩ := by
  cases e <;> simp_all [async_update_data, coordinatorRefresh]

/-- Witness for C8 at the timeout error with concrete stored data. -/
theorem claim_C8_witness :
    FetchError.timeoutExpired ≠ FetchError.unauthorizedCertificate ∧
      ((async_update_data (.error FetchError.timeoutExpired)).1 =
          UpdateMethodResult.updateFailed FetchError.timeoutExpired ∧
        coordinatorRefresh ⟨some ⟨[], []⟩, true⟩
            (async_update_data (.error FetchError.timeoutExpired)).1 =
          ⟨some ⟨[], []⟩, false⟩) :=
  ⟨by decide,
    claim_C8_soft_failure ⟨some ⟨[], []⟩, true⟩ FetchError.timeoutExpired (by decide)⟩

/-- Claim C10: an authorization failure is caught inside the update method,
which returns `None`; the coordinator treats the cycle as successful and
replaces its stored data with `None` (the previous snapshots are not
retained), after which reading any lesson slot's state raises. -/
theorem claim_C10_auth_failure (c : CoordinatorState) (tom : Bool) (n : Nat) :
    async_update_data (.error FetchError.unauthorizedCertificate) =
        (UpdateMethodResult.noneResult, true) ∧
      coordinatorRefresh c UpdateMethodResult.noneResult = ⟨none, true⟩ ∧
      VulcanLessonEntity.state none tom n = none :=
  ⟨rfl, rfl, rfl⟩

/-- Claim C3: with the attendance notify flag enabled, a successful update
cycle emits a notification iff the fetched datetime is strictly greater than
the stored baseline and the content is neither "-" nor "obecność"; and when
the content is "obecność" with a strictly newer datetime the notification is
suppressed while the baseline still advances. -/
theorem claim_C3_attendance_notify (s : AttState) (reg : String → Bool)
    (v : AttSnapshot) (h : s.notify = true) :
    ((attUpdate s reg (fun _ => .ok v)).notified = true ↔
      (s.old_att < v.datetime ∧ v.content ≠ "-" ∧ v.content ≠ "obecność")) ∧
    (v.content = "obecność" → s.old_att < v.datetime →
      (attUpdate s reg (fun _ => .ok v)).notified = false ∧
      (attUpdate s reg (fun _ => .ok v)).state.old_att = v.datetime) := by
  rw [attUpdate_ok]
  split_ifs with hc
  · refine ⟨?_, ?_⟩
    · simp [h, hc.1, hc.2]
    · intro hobec _
      simp [hobec, h]
  · refine ⟨?_, ?_⟩
    · simp only [Bool.false_eq_true, false_iff]
      intro hcon
      exact hc ⟨hcon.2.1, hcon.1⟩
    · intro hobec hlt
      exact absurd ⟨by rw [hobec]; decide, hlt⟩ hc

/-- Witness for C3: baseline datetime 5 with content "obecność", fetched entry
datetime 10 with content "spóźnienie". -/
theorem claim_C3_witness :
    (attInit ⟨"obecność", 5, "l", "n", "d", "t"⟩ true 1).notify = true ∧
      (((attUpdate (attInit ⟨"obecność", 5, "l", "n", "d", "t"⟩ true 1)
            (fun _ => true)
            (fun _ => .ok ⟨"spóźnienie", 10, "l", "n", "d", "t"⟩)).notified = true ↔
          ((5 : Nat) < 10 ∧ ("spóźnienie" : String) ≠ "-" ∧
            ("spóźnienie" : String) ≠ "obecność")) ∧
        (("spóźnienie" : String) = "obecność" → (5 : Nat) < 10 →
          (attUpdate (attInit ⟨"obecność", 5, "l", "n", "d", "t"⟩ true 1)
              (fun _ => true)
              (fun _ => .ok ⟨"spóźnienie", 10, "l", "n", "d", "t"⟩)).notified = false ∧
          (attUpdate (attInit ⟨"obecność", 5, "l", "n", "d", "t"⟩ true 1)
              (fun _ => true)
              (fun _ => .ok ⟨"spóźnienie", 10, "l", "n", "d", "t"⟩)).state.old_att
            = 10)) :=
  ⟨rfl, claim_C3_attendance_notify (attInit ⟨"obecność", 5, "l", "n", "d", "t"⟩ true 1)
    (fun _ => true) ⟨"spóźnienie", 10, "l", "n", "d", "t"⟩ rfl⟩

/-- Counterexample to C4 as stated: the stored identity is the
underscore-joined string, which is not injective in the four fields.  With
baseline snapshot ("a", "b_x", "d", "e") and fetched snapshot
("a_b", "x", "d", "e") the identity tuples differ and the content is not "-",
yet both join to "a_b_x_d_e", so no notification is emitted. -/
theorem claim_C4_counterexample :
    (gradeInit ⟨"a", "b_x", "d", "e", "t", "w"⟩ true 1).old_state =
        gradeId ⟨"a", "b_x", "d", "e", "t", "w"⟩ ∧
      (gradeInit ⟨"a", "b_x", "d", "e", "t", "w"⟩ true 1).notify = true ∧
      (("a_b", "x", "d", "e") ≠
        (("a" : String), ("b_x" : String), ("d" : String), ("e" : String))) ∧
      ("a_b" : String) ≠ "-" ∧
      (gradeUpdate (gradeInit ⟨"a", "b_x", "d", "e", "t", "w"⟩ true 1)
          (fun _ => true)
          (fun _ => .ok ⟨"a_b", "x", "d", "e", "t", "w"⟩)).raised = false ∧
      (gradeUpdate (gradeInit ⟨"a", "b_x", "d", "e", "t", "w"⟩ true 1)
          (fun _ => true)
          (fun _ => .ok ⟨"a_b", "x", "d", "e", "t", "w"⟩)).notified = false := by
  decide

/-- Claim C4 (amended): with the grade notify flag enabled, a successful
update cycle emits a notification iff the fetched content is not "-" and the
underscore-joined identity string content_subject_date_description differs
from the stored previous identity string. -/
theorem claim_C4_grade_notify (s : GradeState) (reg : String → Bool)
    (v : GradeSnapshot) (h : s.notify = true) :
    (gradeUpdate s reg (fun _ => .ok v)).notified = true ↔
      (v.content ≠ "-" ∧ s.old_state ≠ gradeId v) := by
  rw [gradeUpdate_ok]
  split_ifs with hc <;> simp [h, hc]

/-- Witness for C4 (amended) at a concrete baseline and a genuinely new grade. -/
theorem claim_C4_witness :
    (gradeInit ⟨"4", "Math", "d1", "quiz", "t", "w"⟩ true 1).notify = true ∧
      ((gradeUpdate (gradeInit ⟨"4", "Math", "d1", "quiz", "t", "w"⟩ true 1)
          (fun _ => true)
          (fun _ => .ok ⟨"5", "Math", "d2", "test", "t", "w"⟩)).notified = true ↔
        (("5" : String) ≠ "-" ∧
          (gradeInit ⟨"4", "Math", "d1", "quiz", "t", "w"⟩ true 1).old_state ≠
            gradeId ⟨"5", "Math", "d2", "test", "t", "w"⟩)) :=
  ⟨rfl, claim_C4_grade_notify (gradeInit ⟨"4", "Math", "d1", "quiz", "t", "w"⟩ true 1)
    (fun _ => true) ⟨"5", "Math", "d2", "test", "t", "w"⟩ rfl⟩

/-- Claim C9: when a grade change is detected, the domain event is fired iff a
device is registered under the Messages identifier `message{student_id}`,
which differs from the Grades identifier `grade{student_id}` that
`LatestGrade.device_info` registers. -/
theorem claim_C9_grade_event_device (s : GradeState) (reg : String → Bool)
    (v : GradeSnapshot) (h : v.content ≠ "-" ∧ s.old_state ≠ gradeId v) :
    (gradeUpdate s reg (fun _ => .ok v)).eventFired =
        reg (messageDeviceIdentifier s.studentId) ∧
      messageDeviceIdentifier s.studentId ≠ gradeDeviceIdentifier s.studentId := by
  refine ⟨?_, ?_⟩
  · rw [gradeUpdate_ok, if_pos h]
  · intro he
    have hlen := congrArg String.length he
    rw [messageDeviceIdentifier, gradeDeviceIdentifier, String.length_append,
      String.length_append] at hlen
    have h1 : ("message" : String).length = 7 := rfl
    have h2 : ("grade" : String).length = 5 := rfl
    omega

/-- Witness for C9: student 7, registry holding exactly the `message7` device. -/
theorem claim_C9_witness :
    (("5" : String) ≠ "-" ∧
        (gradeInit ⟨"4", "M", "d", "q", "t", "w"⟩ true 7).old_state ≠
          gradeId ⟨"5", "M", "d", "q", "t", "w"⟩) ∧
      ((gradeUpdate (gradeInit ⟨"4", "M", "d", "q", "t", "w"⟩ true 7)
            (fun x => x == "message7")
            (fun _ => .ok ⟨"5", "M", "d", "q", "t", "w"⟩)).eventFired =
          (fun x => x == "message7") (messageDeviceIdentifier 7) ∧
        messageDeviceIdentifier 7 ≠ gradeDeviceIdentifier 7) :=
  ⟨by decide, claim_C9_grade_event_device (gradeInit ⟨"4", "M", "d", "q", "t", "w"⟩ true 7)
    (fun x => x == "message7") ⟨"5", "M", "d", "q", "t", "w"⟩ (by decide)⟩

/-- Counterexample to C1 as stated: a successful attendance fetch (nothing
raised) whose content is the "-" sentinel and whose datetime 10 is newer than
the baseline 5 leaves the baseline at 5 — the stored last-notified identity
does not equal the freshly fetched identity. -/
theorem claim_C1_counterexample :
    (attUpdate (attInit ⟨"p", 5, "l", "n", "d", "t"⟩ true 1) (fun _ => false)
        (fun _ => .ok ⟨"-", 10, "l", "n", "d", "t"⟩)).raised = false ∧
      (attUpdate (attInit ⟨"p", 5, "l", "n", "d", "t"⟩ true 1) (fun _ => false)
          (fun _ => .ok ⟨"-", 10, "l", "n", "d", "t"⟩)).state.old_att ≠
        (⟨"-", 10, "l", "n", "d", "t"⟩ : AttSnapshot).datetime := by
  decide

/-- Claim C1 (amended): after a successful fetch the comparison baseline
advances to the fetched identity exactly when the kind's change condition
holds (attendance: content ≠ "-" and strictly newer datetime; grade:
content ≠ "-" and differing joined identity; message: differing non-zero id);
otherwise it keeps its previous value. -/
theorem claim_C1_baseline (sa : AttState) (sg : GradeState) (sm : MsgState)
    (reg : String → Bool) (va : AttSnapshot) (vg : GradeSnapshot)
    (vm : MsgSnapshot) :
    ((attUpdate sa reg (fun _ => .ok va)).state.old_att =
        if va.content ≠ "-" ∧ sa.old_att < va.datetime then va.datetime
        else sa.old_att) ∧
      ((gradeUpdate sg reg (fun _ => .ok vg)).state.old_state =
        if vg.content ≠ "-" ∧ sg.old_state ≠ gradeId vg then gradeId vg
        else sg.old_state) ∧
      ((msgUpdate sm reg (fun _ => .ok vm)).state.old_msg =
        if sm.old_msg ≠ vm.id ∧ vm.id ≠ 0 then vm.id else sm.old_msg) := by
  refine ⟨?_, ?_, ?_⟩
  · rw [attUpdate_ok]; split_ifs <;> rfl
  · rw [gradeUpdate_ok]; split_ifs <;> rfl
  · rw [msgUpdate_ok]; split_ifs <;> rfl

/-- Counterexample to C2 as stated: when both the fetch and its retry raise,
the exception escapes `async_update` (it is not suppressed — the retry call is
not inside any handler). -/
theorem claim_C2_counterexample :
    (attUpdate (attInit ⟨"p", 5, "l", "n", "d", "t"⟩ true 1) (fun _ => false)
        (fun _ => .error ())).raised = true := rfl

/-- Claim C2 (amended): for every fact kind, on a fetch failure the fetch is
retried exactly once (two fetch calls); if the retry also raises, the
exception propagates out of `async_update`, while the entity's exposed state
and stored snapshot are left exactly as they were before the cycle, and no
notification or event is emitted. -/
theorem claim_C2_retry_once (sa : AttState) (sm : MsgState) (sg : GradeState)
    (sh : HwState) (se : ExamState) (sl : LuckyState) (reg : String → Bool) :
    attUpdate sa reg (fun _ => .error ()) = ⟨sa, false, false, true, 2⟩ ∧
      msgUpdate sm reg (fun _ => .error ()) = ⟨sm, false, false, true, 2⟩ ∧
      gradeUpdate sg reg (fun _ => .error ()) = ⟨sg, false, false, true, 2⟩ ∧
      hwUpdate sh (fun _ => .error ()) = ⟨sh, false, false, true, 2⟩ ∧
      examUpdate se (fun _ => .error ()) = ⟨se, false, false, true, 2⟩ ∧
      luckyUpdate sl (fun _ => .error ()) = ⟨sl, false, false, true, 2⟩ :=
  ⟨rfl, rfl, rfl, rfl, rfl, rfl⟩

/-- When the baseline already equals the fetched datetime, the attendance
update takes the no-change branch: nothing is emitted and the baseline stays. -/
theorem attUpdate_fixed (s : AttState) (reg : String → Bool) (v : AttSnapshot)
    (h : s.old_att = v.datetime) :
    attUpdate s reg (fun _ => .ok v) =
      ⟨{ s with latest_attendance := v, stateVal := v.content },
        false, false, false, 1⟩ := by
  rw [attUpdate_ok, if_neg]
  rintro ⟨-, hlt⟩
  rw [h] at hlt
  exact lt_irrefl _ hlt

/-- When the stored identity already equals the fetched joined identity, the
grade update takes the no-change branch. -/
theorem gradeUpdate_fixed (s : GradeState) (reg : String → Bool)
    (v : GradeSnapshot) (h : s.old_state = gradeId v) :
    gradeUpdate s reg (fun _ => .ok v) =
      ⟨{ s with latest_grade := v, stateVal := v.content },
        false, false, false, 1⟩ := by
  rw [gradeUpdate_ok, if_neg]
  rintro ⟨-, hne⟩
  exact hne h

/-- When the stored id already equals the fetched message id, the message
update takes the no-change branch. -/
theorem msgUpdate_fixed (s : MsgState) (reg : String → Bool) (v : MsgSnapshot)
    (h : s.old_msg = v.id) :
    msgUpdate s reg (fun _ => .ok v) =
      ⟨{ s with latest_message := v, stateVal := v.title.take 250 },
        false, false, false, 1⟩ := by
  rw [msgUpdate_ok, if_neg]
  rintro ⟨hne, -⟩
  exact hne h

/-- Repeating the same attendance snapshot emits nothing, for any number of
cycles, once the baseline matches its datetime. -/
theorem attRepeat_stable (reg : String → Bool) (v : AttSnapshot) :
    ∀ (n : Nat) (s : AttState), s.old_att = v.datetime →
      (attRepeat s reg v n).2 = 0 := by
  intro n
  induction n with
  | zero => exact fun s _ => rfl
  | succ n ih =>
    intro s h
    simp only [attRepeat, attUpdate_fixed s reg v h]
    simp [ih, h]

/-- Repeating the same grade snapshot emits nothing, for any number of
cycles, once the stored identity matches its joined identity. -/
theorem gradeRepeat_stable (reg : String → Bool) (v : GradeSnapshot) :
    ∀ (n : Nat) (s : GradeState), s.old_state = gradeId v →
      (gradeRepeat s reg v n).2 = 0 := by
  intro n
  induction n with
  | zero => exact fun s _ => rfl
  | succ n ih =>
    intro s h
    simp only [gradeRepeat, gradeUpdate_fixed s reg v h]
    simp [ih, h]

/-- Repeating the same message snapshot emits nothing, for any number of
cycles, once the stored id matches its id. -/
theorem msgRepeat_stable (reg : String → Bool) (v : MsgSnapshot) :
    ∀ (n : Nat) (s : MsgState), s.old_msg = v.id →
      (msgRepeat s reg v n).2 = 0 := by
  intro n
  induction n with
  | zero => exact fun s _ => rfl
  | succ n ih =>
    intro s h
    simp only [msgRepeat, msgUpdate_fixed s reg v h]
    simp [ih, h]

/-- Claim C6: once the baseline is established from a snapshot (at setup or by
a previous successful cycle), running any number of further cycles in which
every fetch returns that same snapshot emits zero notifications and zero
domain events, for grade, attendance and message alike. -/
theorem claim_C6_idempotence (reg : String → Bool) (n : Nat)
    (sa : AttState) (va : AttSnapshot) (ha : sa.old_att = va.datetime)
    (sg : GradeState) (vg : GradeSnapshot) (hg : sg.old_state = gradeId vg)
    (sm : MsgState) (vm : MsgSnapshot) (hm : sm.old_msg = vm.id) :
    (attRepeat sa reg va n).2 = 0 ∧ (gradeRepeat sg reg vg n).2 = 0 ∧
      (msgRepeat sm reg vm n).2 = 0 :=
  ⟨attRepeat_stable reg va n sa ha, gradeRepeat_stable reg vg n sg hg,
    msgRepeat_stable reg vm n sm hm⟩

/-- Witness for C6: setup-established baselines for all three kinds and three
repeated cycles of the same snapshots. -/
theorem claim_C6_witness :
    ((attInit ⟨"s", 10, "l", "n", "d", "t"⟩ true 1).old_att =
        (⟨"s", 10, "l", "n", "d", "t"⟩ : AttSnapshot).datetime ∧
      (gradeInit ⟨"5", "M", "d", "q", "t", "w"⟩ true 1).old_state =
        gradeId ⟨"5", "M", "d", "q", "t", "w"⟩ ∧
      (msgInit ⟨5, "t", "s", "d", "c"⟩ true 1).old_msg =
        (⟨5, "t", "s", "d", "c"⟩ : MsgSnapshot).id) ∧
      ((attRepeat (attInit ⟨"s", 10, "l", "n", "d", "t"⟩ true 1) (fun _ => true)
          ⟨"s", 10, "l", "n", "d", "t"⟩ 3).2 = 0 ∧
        (gradeRepeat (gradeInit ⟨"5", "M", "d", "q", "t", "w"⟩ true 1)
          (fun _ => true) ⟨"5", "M", "d", "q", "t", "w"⟩ 3).2 = 0 ∧
        (msgRepeat (msgInit ⟨5, "t", "s", "d", "c"⟩ true 1) (fun _ => true)
          ⟨5, "t", "s", "d", "c"⟩ 3).2 = 0) :=
  ⟨⟨rfl, rfl, rfl⟩,
    claim_C6_idempotence (fun _ => true) 3
      (attInit ⟨"s", 10, "l", "n", "d", "t"⟩ true 1) ⟨"s", 10, "l", "n", "d", "t"⟩ rfl
      (gradeInit ⟨"5", "M", "d", "q", "t", "w"⟩ true 1) ⟨"5", "M", "d", "q", "t", "w"⟩ rfl
      (msgInit ⟨5, "t", "s", "d", "c"⟩ true 1) ⟨5, "t", "s", "d", "c"⟩ rfl⟩

end Vulcan
